import Mathlib

/-!
Verification development for jwst_prop_status.py.

The file shallowly embeds the three core functions of the source,
get_prop_info, get_visit_status and filter_df_by_status, over explicit
models of the parsed documents they consume: xmltodict output is modelled
by the inductive type XVal (strings, None, lists and objects given as
association lists with first-match lookup, matching Python dict access),
and the BeautifulSoup view of the info page is modelled by SoupDoc.
A Python exception anywhere in a function is modelled by the function
returning none.
-/

set_option autoImplicit false

namespace JwstPropStatus

/-- Value of a parsed XML node as produced by xmltodict: a text string, a
Python None (empty element), a list of repeated elements, or a nested
object given as an association list of key and value pairs. -/
inductive XVal where
  | s : String → XVal
  | null : XVal
  | list : List XVal → XVal
  | obj : List (String × XVal) → XVal

/-- Association lists standing for Python dicts with string keys. -/
abbrev XDict := List (String × XVal)

/-- Python dict access d[k] and the test k in d: first binding of the key
wins, none when the key is absent. -/
def xlookup : XDict → String → Option XVal
  | [], _ => none
  | (a, v) :: rest, key => if key = a then some v else xlookup rest key

/-- Removal of every binding of a key, used to state that a field plays no
part in the construction of a record. -/
def eraseKey : XDict → String → XDict
  | [], _ => []
  | (a, v) :: rest, key =>
      if a = key then eraseKey rest key else (a, v) :: eraseKey rest key

/-- Value of an optional field, Python None (modelled XVal.null) when the
key is absent; source lines 58 to 66. -/
def optField (vd : XDict) (key : String) : XVal :=
  (xlookup vd key).getD XVal.null

/-- Whitespace test of the Python default strip and split. -/
def pyIsSpace (c : Char) : Bool :=
  c == ' ' || c == '\t' || c == '\n' || c == '\r' || c == '\x0b' || c == '\x0c'

/-- Python str.strip with no argument. -/
def pyStrip (s : String) : String :=
  String.mk (((s.toList.dropWhile pyIsSpace).reverse.dropWhile pyIsSpace).reverse)

/-- Characters before the first occurrence of a stopping character. -/
def takeBefore (stop : Char) : List Char → List Char
  | [] => []
  | c :: rest => if c = stop then [] else c :: takeBefore stop rest

/-- Python expression s.split("(")[0]: the part of s before the first
opening parenthesis; source lines 72 and 75. -/
def pySplitParen0 (s : String) : String :=
  String.mk (takeBefore '(' s.toList)

/-- Accumulating loop building the pws string of source lines 70 to 72:
each element of the planWindow list must be a string (anything else makes
the Python attribute access .split raise) and contributes its prefix
before the first parenthesis followed by one space. -/
def pwsLoop : List XVal → String → Option String
  | [], acc => some acc
  | XVal.s w :: rest, acc => pwsLoop rest (acc ++ (pySplitParen0 w ++ " "))
  | _ :: _, _ => none

/-- Placeholder sentence of source lines 77 to 80. -/
def lrpMsg : String :=
  "Ready for long range planning, plan window not yet assigned"

/-- Resolution of the plan_window field, source lines 68 to 83. The outer
Option models raising; the inner Option models the Python None of the
final else branch. -/
def planWindowOf (vd : XDict) : Option (Option String) :=
  match xlookup vd "planWindow" with
  | some (XVal.list l) => (pwsLoop l "").map some
  | some (XVal.s w) => some (some (pySplitParen0 w))
  | some _ => none
  | none =>
      match xlookup vd "longRangePlanStatus" with
      | some _ => some (some lrpMsg)
      | none => some none

/-- Sentence of source lines 85 to 89. The three sub-fields are required
present and are required to be strings; the status documents carry them as
strings, and a missing key raises in the source. -/
def fmtRepeatedBy : XVal → Option String
  | XVal.obj rb =>
      match xlookup rb "problemID", xlookup rb "observation", xlookup rb "visit" with
      | some (XVal.s pid), some (XVal.s obs), some (XVal.s vis) =>
          some ("Rescheduled by WOPR " ++ pid ++ " as observation " ++ obs
            ++ " visit " ++ vis ++ " in this program")
      | _, _, _ => none
  | _ => none

/-- Sentence of source lines 91 to 95. -/
def fmtRepeatOf : XVal → Option String
  | XVal.obj ro =>
      match xlookup ro "observation", xlookup ro "visit", xlookup ro "problemID" with
      | some (XVal.s obs), some (XVal.s vis), some (XVal.s pid) =>
          some ("Repeat of observation " ++ obs ++ " visit(s) " ++ vis
            ++ " in this program by WOPR " ++ pid)
      | _, _, _ => none
  | _ => none

/-- Sentence of source lines 97 to 101. -/
def fmtApprovedRepeat : XVal → Option String
  | XVal.obj ar =>
      match xlookup ar "problemID" with
      | some (XVal.s pid) =>
          some ("Repeat visit implementation pending by WOPR " ++ pid)
      | _ => none
  | _ => none

/-- Resolution of the repeat field, source lines 85 to 104. -/
def repeatFieldOf (vd : XDict) : Option (Option String) :=
  match xlookup vd "repeatedBy" with
  | some v => (fmtRepeatedBy v).map some
  | none =>
      match xlookup vd "repeatOf" with
      | some v => (fmtRepeatOf v).map some
      | none =>
          match xlookup vd "approvedRepeat" with
          | some v => (fmtApprovedRepeat v).map some
          | none => some none

/-- Flat row built for one visit entry, the visit_dict of source lines 50
to 104: ten fixed fields. -/
structure VisitRecord where
  observation : XVal
  visit : XVal
  status : XVal
  target : XVal
  configuration : XVal
  hours : XVal
  start_ut : XVal
  end_ut : XVal
  plan_window : Option String
  repeatField : Option String

/-- Body of the per-entry loop of get_visit_status, source lines 48 to
106: the six direct fields are required key accesses, start and end time
default to None, plan window and repeat follow their resolution
policies. -/
def processVisit (vd : XDict) : Option VisitRecord :=
  match xlookup vd "@observation", xlookup vd "@visit", xlookup vd "status",
        xlookup vd "target", xlookup vd "configuration", xlookup vd "hours",
        planWindowOf vd, repeatFieldOf vd with
  | some obs, some vis, some stat, some targ, some conf, some hrs, some pw, some rp =>
      some { observation := obs, visit := vis, status := stat, target := targ,
             configuration := conf, hours := hrs,
             start_ut := optField vd "startTime", end_ut := optField vd "endTime",
             plan_window := pw, repeatField := rp }
  | _, _, _, _, _, _, _, _ => none

/-- One element of the normalized visit list: indexing a non-object with a
string key raises in Python. -/
def entryRecords : XVal → Option VisitRecord
  | XVal.obj d => processVisit d
  | _ => none

/-- Embedding of get_visit_status, source lines 39 to 108, from the parsed
status document: take the visit field of the visitStatusReport object,
wrap a non-list value into a one-element list, and normalize each entry in
order. -/
def get_visit_status (visit_data : XDict) : Option (List VisitRecord) :=
  match xlookup visit_data "visitStatusReport" with
  | some (XVal.obj rep) =>
      match xlookup rep "visit" with
      | some v =>
          (match v with
           | XVal.list l => l
           | x => [x]).mapM entryRecords
      | none => none
  | _ => none

/-- Pandas notnull on a cell: false exactly on Python None. -/
def XVal.notnull : XVal → Bool
  | XVal.null => false
  | _ => true

/-- Pandas elementwise comparison of a status cell with a string: true
exactly when the cell is that string. -/
def xvalEqStr : XVal → String → Bool
  | XVal.s t, sel => t == sel
  | _, _ => false

/-- Embedding of filter_df_by_status, source lines 117 to 124: drop rows
with a null status, keep everything for the selector "All" and otherwise
keep the exact matches, and return the height hint. -/
def filter_df_by_status (status : String) (df : List VisitRecord) :
    List VisitRecord × Nat :=
  let df2 := df.filter (fun r => r.status.notnull)
  let filtered :=
    if status = "All" then df2 else df2.filter (fun r => xvalEqStr r.status status)
  (filtered, filtered.length * 35 + 3)

/-- Node of the parsed info page as seen through BeautifulSoup: either a
text node or an element with a list of child nodes. -/
inductive HNode where
  | text : String → HNode
  | elem : List HNode → HNode

/-- Anchor tag as stored whole into the prop_info dict, with its href
attribute and its contents. -/
structure LinkTag where
  href : String
  contents : List HNode

/-- The three find_all views of the info page that get_prop_info reads:
the contents of each p element, the contents of each h1 element, and the
a elements. -/
structure SoupDoc where
  ps : List (List HNode)
  h1s : List (List HNode)
  links : List LinkTag

/-- Value stored in the prop_info dict: a string, an int, a parsed float
kept as an exact rational, a page node, or a whole link tag. -/
inductive PVal where
  | s : String → PVal
  | i : Int → PVal
  | q : Rat → PVal
  | node : HNode → PVal
  | link : LinkTag → PVal

/-- Lookup in the prop_info dict. -/
def plookup : List (String × PVal) → String → Option PVal
  | [], _ => none
  | (a, v) :: rest, key => if key = a then some v else plookup rest key

/-- Content node at a given index, required to be text: calling the string
method strip on an element tag raises in Python. -/
def textAt (cs : List HNode) (i : Nat) : Option String :=
  match cs.get? i with
  | some (HNode.text s) => some s
  | _ => none

/-- Value of a digit string read in base ten. -/
def digitsVal (l : List Char) : Nat :=
  l.foldl (fun a c => a * 10 + (c.toNat - 48)) 0

/-- Nonempty all-digit character list read as a number, none otherwise. -/
def digitsNat : List Char → Option Nat
  | [] => none
  | l => if l.all Char.isDigit then some (digitsVal l) else none

/-- Python int applied to a string: surrounding whitespace is stripped, an
optional sign is allowed, and the rest must be digits; anything else
raises ValueError. Underscore digit separators are not modelled, the page
never carries them. -/
def pyInt (s : String) : Option Int :=
  match (pyStrip s).toList with
  | '-' :: rest => (digitsNat rest).map (fun n => -(n : Int))
  | '+' :: rest => (digitsNat rest).map (fun n => (n : Int))
  | l => (digitsNat l).map (fun n => (n : Int))

/-- Splitting loop for Python str.split on a dot, accumulating the piece
being read in reverse. -/
def dotSplit : List Char → List Char → List (List Char)
  | [], cur => [cur.reverse]
  | c :: rest, cur =>
      if c = '.' then cur.reverse :: dotSplit rest []
      else dotSplit rest (c :: cur)

/-- Magnitude part of a Python float literal: digits with an optional
decimal point, kept exact as a rational. -/
def pyFloatMag (t : String) : Option Rat :=
  match dotSplit t.toList [] with
  | [a] => (digitsNat a).map (fun n => (n : Rat))
  | [a, b] =>
      if (a.all Char.isDigit && b.all Char.isDigit
          && !(a.isEmpty && b.isEmpty)) = true then
        some ((digitsVal a : Rat) + (digitsVal b : Rat) / ((10 : Rat) ^ b.length))
      else none
  | _ => none

/-- Python float applied to a string, modelled on plain decimal literals
with an optional sign; exponents, inf and nan are not modelled, the
allocation field never carries them. -/
def pyFloat (s : String) : Option Rat :=
  match (pyStrip s).toList with
  | '-' :: rest => (pyFloatMag (String.mk rest)).map (fun q => -q)
  | '+' :: rest => pyFloatMag (String.mk rest)
  | _ => pyFloatMag (pyStrip s)

/-- Splitting loop for Python str.split with no argument: whitespace runs
separate the pieces and no empty piece is produced. -/
def wsSplit : List Char → List Char → List (List Char)
  | [], cur => if cur.isEmpty then [] else [cur.reverse]
  | c :: rest, cur =>
      if pyIsSpace c then
        if cur.isEmpty then wsSplit rest [] else cur.reverse :: wsSplit rest []
      else wsSplit rest (c :: cur)

/-- Python str.split with no argument: split on whitespace runs, dropping
empty pieces. -/
def pySplitWs (s : String) : List String :=
  (wsSplit s.toList []).map String.mk

/-- Exclusion time read from the second paragraph, source lines 27 to 30:
the last content node is taken (IndexError on an empty list is caught and
gives 0), stripped and split on whitespace, the first piece is taken
(IndexError again caught, giving 0) and parsed by int, whose ValueError is
not caught. A last content node that is an element tag raises an uncaught
AttributeError on strip. -/
def exclTimeOf (cs : List HNode) : Option Int :=
  match cs.getLast? with
  | none => some 0
  | some (HNode.text s) =>
      match (pySplitWs (pyStrip s)).head? with
      | none => some 0
      | some tok => pyInt tok
  | some (HNode.elem _) => none

/-- Program type read from the first h1 element, source line 31: its
content node at index 1 must be an element tag, whose first content node
is taken. -/
def ptypeOf (cs : List HNode) : Option HNode :=
  match cs.get? 1 with
  | some (HNode.elem inner) => inner.head?
  | _ => none

/-- Embedding of get_prop_info, source lines 13 to 35, from the parsed
info page. An empty paragraph list yields the empty dict; with at least
one paragraph every positional access is required, and a second paragraph
must exist; the dict is built in source order. -/
def get_prop_info (doc : SoupDoc) : Option (List (String × PVal)) :=
  match doc.ps with
  | [] => some []
  | [_] => none
  | p0 :: p1 :: _ =>
      match textAt p0 1, textAt p0 5, textAt p1 1, textAt p1 5, textAt p1 9,
            doc.h1s.head?, doc.links.get? 9, doc.links.get? 10 with
      | some piR, some inR, some tiR, some cyR, some alR,
        some h1c, some apt, some pdf =>
          match pyInt (pyStrip cyR), ((pySplitWs (pyStrip alR)).head?).bind pyFloat,
                exclTimeOf p1, ptypeOf h1c with
          | some cyc, some alloc, some excl, some pt =>
              some [("pi", PVal.s (pyStrip piR)), ("pi_inst", PVal.s (pyStrip inR)),
                    ("title", PVal.s (pyStrip tiR)), ("cycle", PVal.i cyc),
                    ("allocation", PVal.q alloc), ("excl_time", PVal.i excl),
                    ("ptype", PVal.node pt), ("apt", PVal.link apt),
                    ("pdf", PVal.link pdf)]
          | _, _, _, _ => none
      | _, _, _, _, _, _, _, _ => none

/-! Helper lemmas. -/

theorem xlookup_eraseKey (vd : XDict) (k key : String) :
    xlookup (eraseKey vd k) key = if key = k then none else xlookup vd key := by
  induction vd with
  | nil => simp [eraseKey, xlookup]
  | cons hd tl ih =>
      obtain ⟨a, v⟩ := hd
      by_cases hak : a = k
      · subst hak
        by_cases hka : key = a
        · subst hka
          simp [eraseKey, xlookup, ih]
        · simp [eraseKey, xlookup, hka, ih]
      · by_cases hka : key = a
        · subst hka
          simp [eraseKey, xlookup, hak]
        · simp [eraseKey, xlookup, hak, hka, ih]

theorem optField_eraseKey (vd : XDict) (k key : String) :
    optField (eraseKey vd k) key
      = if key = k then XVal.null else optField vd key := by
  unfold optField
  rw [xlookup_eraseKey]
  by_cases h : key = k <;> simp [h]

theorem planWindowOf_eraseKey (vd : XDict) (k : String)
    (h1 : ("planWindow" : String) ≠ k) (h2 : ("longRangePlanStatus" : String) ≠ k) :
    planWindowOf (eraseKey vd k) = planWindowOf vd := by
  unfold planWindowOf
  rw [xlookup_eraseKey, if_neg h1, xlookup_eraseKey, if_neg h2]

theorem repeatFieldOf_eraseKey (vd : XDict) (k : String)
    (h1 : ("repeatedBy" : String) ≠ k) (h2 : ("repeatOf" : String) ≠ k)
    (h3 : ("approvedRepeat" : String) ≠ k) :
    repeatFieldOf (eraseKey vd k) = repeatFieldOf vd := by
  unfold repeatFieldOf
  rw [xlookup_eraseKey, if_neg h1, xlookup_eraseKey, if_neg h2,
    xlookup_eraseKey, if_neg h3]

/-- Inversion of a successful run of the per-entry loop: the resolved
plan window and repeat values and the two time defaults are read off the
record. -/
theorem processVisit_some {vd : XDict} {r : VisitRecord}
    (h : processVisit vd = some r) :
    planWindowOf vd = some r.plan_window ∧ repeatFieldOf vd = some r.repeatField ∧
    r.start_ut = optField vd "startTime" ∧ r.end_ut = optField vd "endTime" := by
  unfold processVisit at h
  split at h
  · rename_i obs vis stat targ conf hrs pw rp h1 h2 h3 h4 h5 h6 h7 h8
    cases h
    exact ⟨h7, h8, rfl, rfl⟩
  · exact absurd h (by simp)

/-- Removing the startTime field only nulls the start_ut column. -/
theorem processVisit_eraseKey_startTime (vd : XDict) :
    processVisit (eraseKey vd "startTime")
      = (processVisit vd).map (fun r => { r with start_ut := XVal.null }) := by
  unfold processVisit
  rw [xlookup_eraseKey, if_neg (by decide), xlookup_eraseKey, if_neg (by decide),
    xlookup_eraseKey, if_neg (by decide), xlookup_eraseKey, if_neg (by decide),
    xlookup_eraseKey, if_neg (by decide), xlookup_eraseKey, if_neg (by decide),
    planWindowOf_eraseKey vd _ (by decide) (by decide),
    repeatFieldOf_eraseKey vd _ (by decide) (by decide) (by decide),
    optField_eraseKey, if_pos rfl, optField_eraseKey, if_neg (by decide)]
  cases xlookup vd "@observation" <;> cases xlookup vd "@visit" <;>
    cases xlookup vd "status" <;> cases xlookup vd "target" <;>
    cases xlookup vd "configuration" <;> cases xlookup vd "hours" <;>
    cases planWindowOf vd <;> cases repeatFieldOf vd <;> rfl

/-- Removing the endTime field only nulls the end_ut column. -/
theorem processVisit_eraseKey_endTime (vd : XDict) :
    processVisit (eraseKey vd "endTime")
      = (processVisit vd).map (fun r => { r with end_ut := XVal.null }) := by
  unfold processVisit
  rw [xlookup_eraseKey, if_neg (by decide), xlookup_eraseKey, if_neg (by decide),
    xlookup_eraseKey, if_neg (by decide), xlookup_eraseKey, if_neg (by decide),
    xlookup_eraseKey, if_neg (by decide), xlookup_eraseKey, if_neg (by decide),
    planWindowOf_eraseKey vd _ (by decide) (by decide),
    repeatFieldOf_eraseKey vd _ (by decide) (by decide) (by decide),
    optField_eraseKey, if_neg (by decide), optField_eraseKey, if_pos rfl]
  cases xlookup vd "@observation" <;> cases xlookup vd "@visit" <;>
    cases xlookup vd "status" <;> cases xlookup vd "target" <;>
    cases xlookup vd "configuration" <;> cases xlookup vd "hours" <;>
    cases planWindowOf vd <;> cases repeatFieldOf vd <;> rfl

theorem string_append_assoc (a b c : String) : a ++ b ++ c = a ++ (b ++ c) := by
  rcases a with ⟨la⟩
  rcases b with ⟨lb⟩
  rcases c with ⟨lc⟩
  show String.mk (la ++ lb ++ lc) = String.mk (la ++ (lb ++ lc))
  rw [List.append_assoc]

/-- The pws accumulator loop appends one token and one space per element,
so a run over a nonempty list ends with a space. -/
theorem pwsLoop_trailing_space (l : List XVal) :
    ∀ (acc s : String), pwsLoop l acc = some s → l ≠ [] →
      ∃ t, s = t ++ " " := by
  induction l with
  | nil => exact fun acc s _ hne => absurd rfl hne
  | cons x rest ih =>
      intro acc s h _
      match x, h with
      | XVal.s w, h =>
          unfold pwsLoop at h
          by_cases hrest : rest = []
          · subst hrest
            unfold pwsLoop at h
            cases h
            exact ⟨acc ++ pySplitParen0 w,
              (string_append_assoc acc (pySplitParen0 w) " ").symm⟩
          · exact ih _ s h hrest

/-! Claim C1. -/

/-- Three mutually exclusive outcomes for the plan_window field, in the
priority order of source lines 68 to 83: explicit window string or strings
under the planWindow key, the fixed placeholder under the
longRangePlanStatus marker, else null. -/
def planWindowBranches (vd : XDict) (r : VisitRecord) : Prop :=
  (∃ w, xlookup vd "planWindow" = some (XVal.s w) ∧
    r.plan_window = some (pySplitParen0 w))
  ∨ (∃ l pws, xlookup vd "planWindow" = some (XVal.list l) ∧
      pwsLoop l "" = some pws ∧ r.plan_window = some pws)
  ∨ (xlookup vd "planWindow" = none ∧
      (∃ v, xlookup vd "longRangePlanStatus" = some v) ∧
      r.plan_window = some lrpMsg)
  ∨ (xlookup vd "planWindow" = none ∧
      xlookup vd "longRangePlanStatus" = none ∧ r.plan_window = none)

/-- C1: for every raw visit entry that get_visit_status processes into a
record, the plan_window field is produced by exactly one of three
branches, tried in priority order: present planWindow strings, stripped at
the first parenthesis and concatenated each with a following space; else
the long range planning placeholder when longRangePlanStatus is present;
else null. -/
theorem plan_window_branches_exclusive (vd : XDict) (r : VisitRecord)
    (h : processVisit vd = some r) : planWindowBranches vd r := by
  obtain ⟨hpw, -, -, -⟩ := processVisit_some h
  unfold planWindowOf at hpw
  split at hpw
  · rename_i l heq
    rw [Option.map_eq_some'] at hpw
    obtain ⟨pws, hp, hval⟩ := hpw
    exact Or.inr (Or.inl ⟨l, pws, heq, hp, hval.symm⟩)
  · rename_i w heq
    rw [Option.some.injEq] at hpw
    exact Or.inl ⟨w, heq, hpw.symm⟩
  · rename_i heq hne1 hne2
    exact absurd hpw (by simp)
  · rename_i heq
    split at hpw
    · rename_i v heq2
      rw [Option.some.injEq] at hpw
      exact Or.inr (Or.inr (Or.inl ⟨heq, ⟨v, heq2⟩, hpw.symm⟩))
    · rename_i heq2
      rw [Option.some.injEq] at hpw
      exact Or.inr (Or.inr (Or.inr ⟨heq, heq2, hpw.symm⟩))

/-- Entry with a scalar planWindow, used to instantiate C1. -/
def vdW1 : XDict :=
  [("@observation", XVal.s "1"), ("@visit", XVal.s "1"),
   ("status", XVal.s "Scheduled"), ("target", XVal.s "T1"),
   ("configuration", XVal.s "NIRCam"), ("hours", XVal.s "2.0"),
   ("planWindow", XVal.s "2025")]

/-- Record that get_visit_status builds for vdW1. -/
def recW1 : VisitRecord :=
  { observation := XVal.s "1", visit := XVal.s "1",
    status := XVal.s "Scheduled", target := XVal.s "T1",
    configuration := XVal.s "NIRCam", hours := XVal.s "2.0",
    start_ut := XVal.null, end_ut := XVal.null,
    plan_window := some "2025", repeatField := none }

/-- Witness for C1 at a concrete entry. -/
theorem plan_window_branches_witness : planWindowBranches vdW1 recW1 :=
  plan_window_branches_exclusive vdW1 recW1 (by rfl)

/-! Claim C2. -/

/-- Four mutually exclusive outcomes for the repeat field, in the priority
order of source lines 85 to 104: rescheduled-by sentence, repeat-of
sentence, approved-repeat sentence, else null. -/
def repeatBranches (vd : XDict) (r : VisitRecord) : Prop :=
  (∃ rb pid obs vis, xlookup vd "repeatedBy" = some (XVal.obj rb) ∧
    xlookup rb "problemID" = some (XVal.s pid) ∧
    xlookup rb "observation" = some (XVal.s obs) ∧
    xlookup rb "visit" = some (XVal.s vis) ∧
    r.repeatField = some ("Rescheduled by WOPR " ++ pid ++ " as observation "
      ++ obs ++ " visit " ++ vis ++ " in this program"))
  ∨ (xlookup vd "repeatedBy" = none ∧
      ∃ ro obs vis pid, xlookup vd "repeatOf" = some (XVal.obj ro) ∧
        xlookup ro "observation" = some (XVal.s obs) ∧
        xlookup ro "visit" = some (XVal.s vis) ∧
        xlookup ro "problemID" = some (XVal.s pid) ∧
        r.repeatField = some ("Repeat of observation " ++ obs ++ " visit(s) "
          ++ vis ++ " in this program by WOPR " ++ pid))
  ∨ (xlookup vd "repeatedBy" = none ∧ xlookup vd "repeatOf" = none ∧
      ∃ ar pid, xlookup vd "approvedRepeat" = some (XVal.obj ar) ∧
        xlookup ar "problemID" = some (XVal.s pid) ∧
        r.repeatField = some ("Repeat visit implementation pending by WOPR "
          ++ pid))
  ∨ (xlookup vd "repeatedBy" = none ∧ xlookup vd "repeatOf" = none ∧
      xlookup vd "approvedRepeat" = none ∧ r.repeatField = none)

/-- C2: for every raw visit entry that get_visit_status processes into a
record, the repeat field is produced by exactly one of four mutually
exclusive branches, tried in priority order: a repeatedBy reference gives
a sentence naming the problem id and the target observation and visit; a
repeatOf reference gives a sentence naming the source observation, visit
string and problem id; an approvedRepeat reference gives a sentence naming
the problem id; else null. -/
theorem repeat_branches_exclusive (vd : XDict) (r : VisitRecord)
    (h : processVisit vd = some r) : repeatBranches vd r := by
  obtain ⟨-, hrp, -, -⟩ := processVisit_some h
  unfold repeatFieldOf at hrp
  split at hrp
  · rename_i v heq
    rw [Option.map_eq_some'] at hrp
    obtain ⟨m, hm, hval⟩ := hrp
    unfold fmtRepeatedBy at hm
    split at hm
    · rename_i rb
      split at hm
      · rename_i pid obs vis h1 h2 h3
        cases hm
        exact Or.inl ⟨rb, pid, obs, vis, heq, h1, h2, h3, hval.symm⟩
      · exact absurd hm (by simp)
    · exact absurd hm (by simp)
  · rename_i heq
    split at hrp
    · rename_i v heq2
      rw [Option.map_eq_some'] at hrp
      obtain ⟨m, hm, hval⟩ := hrp
      unfold fmtRepeatOf at hm
      split at hm
      · rename_i ro
        split at hm
        · rename_i obs vis pid h1 h2 h3
          cases hm
          exact Or.inr (Or.inl ⟨heq, ro, obs, vis, pid, heq2, h1, h2, h3,
            hval.symm⟩)
        · exact absurd hm (by simp)
      · exact absurd hm (by simp)
    · rename_i heq2
      split at hrp
      · rename_i v heq3
        rw [Option.map_eq_some'] at hrp
        obtain ⟨m, hm, hval⟩ := hrp
        unfold fmtApprovedRepeat at hm
        split at hm
        · rename_i ar
          split at hm
          · rename_i pid h1
            cases hm
            exact Or.inr (Or.inr (Or.inl ⟨heq, heq2, ar, pid, heq3, h1,
              hval.symm⟩))
          · exact absurd hm (by simp)
        · exact absurd hm (by simp)
      · rename_i heq3
        rw [Option.some.injEq] at hrp
        exact Or.inr (Or.inr (Or.inr ⟨heq, heq2, heq3, hrp.symm⟩))

/-- Entry with a repeatedBy reference, used to instantiate C2. -/
def vdW2 : XDict :=
  [("@observation", XVal.s "1"), ("@visit", XVal.s "1"),
   ("status", XVal.s "Withdrawn"), ("target", XVal.s "T1"),
   ("configuration", XVal.s "MIRI"), ("hours", XVal.s "1.5"),
   ("repeatedBy", XVal.obj [("problemID", XVal.s "80123"),
     ("observation", XVal.s "2"), ("visit", XVal.s "1")])]

/-- Record that get_visit_status builds for vdW2. -/
def recW2 : VisitRecord :=
  { observation := XVal.s "1", visit := XVal.s "1",
    status := XVal.s "Withdrawn", target := XVal.s "T1",
    configuration := XVal.s "MIRI", hours := XVal.s "1.5",
    start_ut := XVal.null, end_ut := XVal.null, plan_window := none,
    repeatField :=
      some "Rescheduled by WOPR 80123 as observation 2 visit 1 in this program" }

/-- Witness for C2 at a concrete entry. -/
theorem repeat_branches_witness : repeatBranches vdW2 recW2 :=
  repeat_branches_exclusive vdW2 recW2 (by rfl)

/-! Claim C3. -/

/-- C3: a status document whose visit field is a bare entry object and one
whose visit field is the one-element list holding that object yield the
same record sequence, and for a list-valued visit field the sequence is
the in-order normalization of its elements. -/
theorem visit_scalar_list_normalized :
    (∀ e : XDict,
      get_visit_status [("visitStatusReport", XVal.obj [("visit", XVal.obj e)])]
        = get_visit_status
            [("visitStatusReport", XVal.obj [("visit", XVal.list [XVal.obj e])])])
    ∧ (∀ l : List XVal,
      get_visit_status [("visitStatusReport", XVal.obj [("visit", XVal.list l)])]
        = l.mapM entryRecords) :=
  ⟨fun _ => rfl, fun _ => rfl⟩

/-! Claim C4. -/

/-- Row with a set status, used against the lowercase sentinel. -/
def recC4 : VisitRecord :=
  { observation := XVal.null, visit := XVal.null, status := XVal.s "Scheduled",
    target := XVal.null, configuration := XVal.null, hours := XVal.null,
    start_ut := XVal.null, end_ut := XVal.null,
    plan_window := none, repeatField := none }

/-- Counterexample to C4 as stated: the selector "all" is not a sentinel
for the code, which compares against the capitalized "All"; on a one-row
table whose status survives the notnull filter, the selector "all" keeps
nothing instead of keeping every remaining row. -/
theorem filter_all_lowercase_cex :
    List.filter (fun r => r.status.notnull) [recC4] = [recC4]
    ∧ (filter_df_by_status "all" [recC4]).1 = [] :=
  ⟨rfl, rfl⟩

/-- C4 amended: rows with a null status are dropped first; the sentinel is
the capitalized string "All", which keeps every remaining row in order;
any other selector keeps exactly the remaining rows whose status is the
selector string, compared case sensitively, in order. -/
theorem filter_by_status_spec (status : String) (df : List VisitRecord) :
    ((filter_df_by_status "All" df).1 = df.filter (fun r => r.status.notnull))
    ∧ (status ≠ "All" →
        (filter_df_by_status status df).1
          = (df.filter (fun r => r.status.notnull)).filter
              (fun r => xvalEqStr r.status status))
    ∧ (∀ v : XVal, xvalEqStr v status = true ↔ v = XVal.s status) := by
  refine ⟨?_, ?_, ?_⟩
  · simp [filter_df_by_status]
  · intro h
    simp [filter_df_by_status, h]
  · intro v
    cases v <;> simp [xvalEqStr]

/-- Rows used to instantiate the amended C4: two matches around a
nonmatching and a null-status row. -/
def wdf4 : List VisitRecord :=
  [{ recC4 with observation := XVal.s "1" },
   { recC4 with observation := XVal.s "2", status := XVal.null },
   { recC4 with observation := XVal.s "3", status := XVal.s "Executed" },
   { recC4 with observation := XVal.s "4" }]

/-- Witness for the amended C4 at a concrete selector and table. -/
theorem filter_by_status_spec_witness :
    ("Scheduled" : String) ≠ "All"
    ∧ (filter_df_by_status "Scheduled" wdf4).1
        = (wdf4.filter (fun r => r.status.notnull)).filter
            (fun r => xvalEqStr r.status "Scheduled") :=
  ⟨by decide, (filter_by_status_spec "Scheduled" wdf4).2.1 (by decide)⟩

/-! Claim C5. -/

/-- C5: the height hint returned beside the filtered rows is always the
row count times 35 plus 3, an empty table gives an empty result with hint
3 for every selector, and four filtered rows give 143; the function is
total, so no input is an error. -/
theorem height_formula (status : String) (df : List VisitRecord) :
    ((filter_df_by_status status df).2
        = (filter_df_by_status status df).1.length * 35 + 3)
    ∧ filter_df_by_status status ([] : List VisitRecord) = ([], 3)
    ∧ ((filter_df_by_status status df).1.length = 4 →
        (filter_df_by_status status df).2 = 143) := by
  have h1 : (filter_df_by_status status df).2
      = (filter_df_by_status status df).1.length * 35 + 3 := by
    simp [filter_df_by_status]
  refine ⟨h1, ?_, fun h4 => by rw [h1, h4]⟩
  simp [filter_df_by_status]

/-- Four-row table used to instantiate C5. -/
def wdf5 : List VisitRecord :=
  [{ observation := XVal.s "1", visit := XVal.s "1", status := XVal.s "GO",
     target := XVal.null, configuration := XVal.null, hours := XVal.null,
     start_ut := XVal.null, end_ut := XVal.null,
     plan_window := none, repeatField := none },
   { observation := XVal.s "1", visit := XVal.s "2", status := XVal.s "GO",
     target := XVal.null, configuration := XVal.null, hours := XVal.null,
     start_ut := XVal.null, end_ut := XVal.null,
     plan_window := none, repeatField := none },
   { observation := XVal.s "2", visit := XVal.s "1", status := XVal.s "GO",
     target := XVal.null, configuration := XVal.null, hours := XVal.null,
     start_ut := XVal.null, end_ut := XVal.null,
     plan_window := none, repeatField := none },
   { observation := XVal.s "2", visit := XVal.s "2", status := XVal.s "GO",
     target := XVal.null, configuration := XVal.null, hours := XVal.null,
     start_ut := XVal.null, end_ut := XVal.null,
     plan_window := none, repeatField := none }]

/-- Witness for C5: four filtered rows give height 143. -/
theorem height_formula_witness :
    (filter_df_by_status "All" wdf5).1.length = 4
    ∧ (filter_df_by_status "All" wdf5).2 = 143 :=
  ⟨by rfl, (height_formula "All" wdf5).2.2 (by rfl)⟩

/-! Claim C8. -/

/-- Conclusion of C8 for one entry: an absent startTime or endTime key
leaves a null start_ut or end_ut, and removing either key from any entry
that normalizes successfully still normalizes successfully, changing only
that column to null. -/
def startEndNullBehaviour (vd : XDict) (r : VisitRecord) : Prop :=
  (xlookup vd "startTime" = none → r.start_ut = XVal.null)
  ∧ (xlookup vd "endTime" = none → r.end_ut = XVal.null)
  ∧ processVisit (eraseKey vd "startTime") = some { r with start_ut := XVal.null }
  ∧ processVisit (eraseKey vd "endTime") = some { r with end_ut := XVal.null }

/-- C8: for every raw visit entry lacking a startTime or endTime field,
get_visit_status leaves the corresponding record column null without
raising, and the rest of the record is built normally. -/
theorem missing_times_null (vd : XDict) (r : VisitRecord)
    (h : processVisit vd = some r) : startEndNullBehaviour vd r := by
  obtain ⟨-, -, hs, he⟩ := processVisit_some h
  refine ⟨?_, ?_, ?_, ?_⟩
  · intro hnone
    rw [hs]
    unfold optField
    rw [hnone]
    rfl
  · intro hnone
    rw [he]
    unfold optField
    rw [hnone]
    rfl
  · rw [processVisit_eraseKey_startTime, h]
    rfl
  · rw [processVisit_eraseKey_endTime, h]
    rfl

/-- Entry without startTime and endTime, used to instantiate C8. -/
def vdW8 : XDict :=
  [("@observation", XVal.s "3"), ("@visit", XVal.s "2"),
   ("status", XVal.s "Implementation"), ("target", XVal.s "T2"),
   ("configuration", XVal.s "NIRSpec"), ("hours", XVal.s "4.2")]

/-- Record that get_visit_status builds for vdW8. -/
def recW8 : VisitRecord :=
  { observation := XVal.s "3", visit := XVal.s "2",
    status := XVal.s "Implementation", target := XVal.s "T2",
    configuration := XVal.s "NIRSpec", hours := XVal.s "4.2",
    start_ut := XVal.null, end_ut := XVal.null,
    plan_window := none, repeatField := none }

/-- Witness for C8 at a concrete entry. -/
theorem missing_times_null_witness : startEndNullBehaviour vdW8 recW8 :=
  missing_times_null vdW8 recW8 (by rfl)

/-! Claim C9. -/

/-- Trailing space test on the character data of a string. -/
def endsWithSpace (s : String) : Bool :=
  s.toList.getLast? == some ' '

/-- Entry whose planWindow is an empty list, used against the unrestricted
trailing-space claim. -/
def vdC9 : XDict :=
  [("@observation", XVal.s "1"), ("@visit", XVal.s "1"),
   ("status", XVal.s "Scheduled"), ("target", XVal.s "T1"),
   ("configuration", XVal.s "NIRCam"), ("hours", XVal.s "2.0"),
   ("planWindow", XVal.list [])]

/-- Record that get_visit_status builds for vdC9. -/
def recC9 : VisitRecord :=
  { observation := XVal.s "1", visit := XVal.s "1",
    status := XVal.s "Scheduled", target := XVal.s "T1",
    configuration := XVal.s "NIRCam", hours := XVal.s "2.0",
    start_ut := XVal.null, end_ut := XVal.null,
    plan_window := some "", repeatField := none }

/-- Counterexample to C9 as stated: an entry whose planWindow is the empty
list goes through the list branch and produces the empty string as its
plan_window, and the empty string does not end with a space. -/
theorem plan_window_trailing_space_cex :
    xlookup vdC9 "planWindow" = some (XVal.list [])
    ∧ processVisit vdC9 = some recC9
    ∧ recC9.plan_window = some ""
    ∧ endsWithSpace "" = false :=
  ⟨rfl, rfl, rfl, rfl⟩

theorem string_nil_append (s : String) : "" ++ s = s := by
  rcases s with ⟨l⟩
  rfl

/-- C9 amended: every plan_window produced by the list branch from a
nonempty planWindow list ends with a trailing space, and for a one-element
list the produced plan_window is the scalar result of the same window
string with one extra trailing space appended. -/
theorem plan_window_trailing_space (vd vd2 : XDict) (r r2 : VisitRecord)
    (w : String) (l : List XVal) (h : processVisit vd = some r) :
    (xlookup vd "planWindow" = some (XVal.list l) → l ≠ [] →
      ∃ t, r.plan_window = some (t ++ " "))
    ∧ (xlookup vd "planWindow" = some (XVal.list [XVal.s w]) →
        processVisit vd2 = some r2 →
        xlookup vd2 "planWindow" = some (XVal.s w) →
        ∃ u, r2.plan_window = some u ∧ r.plan_window = some (u ++ " ")) := by
  obtain ⟨hpw, -, -, -⟩ := processVisit_some h
  constructor
  · intro hlist hne
    have e1 : planWindowOf vd = (pwsLoop l "").map some := by
      unfold planWindowOf
      rw [hlist]
    rw [e1] at hpw
    obtain ⟨pws, hp, hval⟩ := Option.map_eq_some'.mp hpw
    obtain ⟨t, ht⟩ := pwsLoop_trailing_space l "" pws hp hne
    refine ⟨t, ?_⟩
    rw [← hval, ht]
  · intro hl hp2 hsc
    obtain ⟨hpw2, -, -, -⟩ := processVisit_some hp2
    have e1 : planWindowOf vd = some (some ("" ++ (pySplitParen0 w ++ " "))) := by
      unfold planWindowOf
      rw [hl]
      rfl
    have e2 : planWindowOf vd2 = some (some (pySplitParen0 w)) := by
      unfold planWindowOf
      rw [hsc]
    rw [hpw] at e1
    rw [hpw2] at e2
    rw [Option.some.injEq] at e1 e2
    refine ⟨pySplitParen0 w, e2, ?_⟩
    rw [e1, string_nil_append]

/-- Entry with a one-element planWindow list, used to instantiate C9. -/
def vdW9 : XDict :=
  [("@observation", XVal.s "5"), ("@visit", XVal.s "1"),
   ("status", XVal.s "Scheduled"), ("target", XVal.s "T5"),
   ("configuration", XVal.s "NIRISS"), ("hours", XVal.s "0.7"),
   ("planWindow", XVal.list [XVal.s "2025-01"])]

/-- Record that get_visit_status builds for vdW9. -/
def recW9 : VisitRecord :=
  { observation := XVal.s "5", visit := XVal.s "1",
    status := XVal.s "Scheduled", target := XVal.s "T5",
    configuration := XVal.s "NIRISS", hours := XVal.s "0.7",
    start_ut := XVal.null, end_ut := XVal.null,
    plan_window := some "2025-01 ", repeatField := none }

/-- Entry with the same window as a scalar, used to instantiate C9. -/
def vdW9b : XDict :=
  [("@observation", XVal.s "5"), ("@visit", XVal.s "1"),
   ("status", XVal.s "Scheduled"), ("target", XVal.s "T5"),
   ("configuration", XVal.s "NIRISS"), ("hours", XVal.s "0.7"),
   ("planWindow", XVal.s "2025-01")]

/-- Record that get_visit_status builds for vdW9b. -/
def recW9b : VisitRecord :=
  { observation := XVal.s "5", visit := XVal.s "1",
    status := XVal.s "Scheduled", target := XVal.s "T5",
    configuration := XVal.s "NIRISS", hours := XVal.s "0.7",
    start_ut := XVal.null, end_ut := XVal.null,
    plan_window := some "2025-01", repeatField := none }

/-- Witness for the amended C9 at a concrete window. -/
theorem plan_window_trailing_space_witness :
    (∃ t, recW9.plan_window = some (t ++ " "))
    ∧ (∃ u, recW9b.plan_window = some u
        ∧ recW9.plan_window = some (u ++ " ")) :=
  ⟨(plan_window_trailing_space vdW9 vdW9b recW9 recW9b "2025-01"
      [XVal.s "2025-01"] (by rfl)).1 (by rfl) (by simp),
   (plan_window_trailing_space vdW9 vdW9b recW9 recW9b "2025-01"
      [XVal.s "2025-01"] (by rfl)).2 (by rfl) (by rfl) (by rfl)⟩

/-! Claim C6. -/

/-- C6: an info document with no paragraph elements makes get_prop_info
return the empty dict, the soft not-found result, without raising. -/
theorem prop_info_empty_when_no_paragraphs (doc : SoupDoc)
    (h : doc.ps = []) : get_prop_info doc = some [] := by
  obtain ⟨ps, h1s, links⟩ := doc
  subst h
  rfl

/-- Witness for C6 on a concrete empty document. -/
theorem prop_info_empty_witness :
    get_prop_info { ps := [], h1s := [], links := [] } = some [] :=
  prop_info_empty_when_no_paragraphs { ps := [], h1s := [], links := [] } rfl

/-! Claim C7. -/

/-- Document whose second paragraph has no content nodes at all, so its
last content position does not exist. -/
def docC7 : SoupDoc :=
  { ps := [[HNode.text "", HNode.text "Jane Doe", HNode.text "",
            HNode.text "", HNode.text "", HNode.text "STScI"], []],
    h1s := [[HNode.text "", HNode.elem [HNode.text "GO"]]],
    links := [] }

/-- Counterexample to C7 as stated: on a document whose second paragraph
has no last content position, the extractor raises on the earlier
positional title access instead of defaulting the exclusion time to 0 and
extracting the other fields. -/
theorem excl_time_missing_position_cex :
    docC7.ps.get? 1 = some []
    ∧ ([] : List HNode).getLast? = none
    ∧ get_prop_info docC7 = none :=
  ⟨rfl, rfl, rfl⟩

/-- C7 amended: the exclusion time is read from the last content node of
the second paragraph, and the caught IndexError path is the one in which
that node is blank text carrying no whitespace-separated token, in which
case excl_time defaults to 0 while the other fields are extracted
normally; when the last position itself does not exist, an earlier
positional access has already failed. -/
theorem excl_time_blank_defaults_zero (doc : SoupDoc)
    (d : List (String × PVal)) (p0 p1 : List HNode)
    (rest : List (List HNode)) (s : String)
    (hps : doc.ps = p0 :: p1 :: rest)
    (hlast : p1.getLast? = some (HNode.text s))
    (hblank : pySplitWs (pyStrip s) = [])
    (h : get_prop_info doc = some d) :
    plookup d "excl_time" = some (PVal.i 0) := by
  have hx : exclTimeOf p1 = some 0 := by
    unfold exclTimeOf
    rw [hlast]
    simp [hblank]
  unfold get_prop_info at h
  split at h
  · rename_i heq
    rw [hps] at heq
    cases heq
  · rename_i x heq
    rw [hps] at heq
    injection heq with e0 e1
    cases e1
  · rename_i q0 q1 tail heq
    rw [hps] at heq
    injection heq with e0 e1
    injection e1 with e1 e2
    subst e0
    subst e1
    rw [hx] at h
    split at h
    · split at h
      · rename_i cyc alloc excl pt hcy hal hexcl hpt
        rw [Option.some.injEq] at hexcl h
        subst hexcl
        subst h
        rfl
      · exact absurd h (by simp)
    · exact absurd h (by simp)

/-- First paragraph contents of the C7 witness document. -/
def p0W7 : List HNode :=
  [HNode.text "", HNode.text "Jane Doe", HNode.text "", HNode.text "",
   HNode.text "", HNode.text "STScI"]

/-- Second paragraph contents of the C7 witness document: the last content
node is blank, so the exclusion time is absent. -/
def p1W7 : List HNode :=
  [HNode.text "", HNode.text "A Title", HNode.text "", HNode.text "",
   HNode.text "", HNode.text "2", HNode.text "", HNode.text "",
   HNode.text "", HNode.text "25 hours", HNode.text " "]

/-- Link tag used by the C7 witness document. -/
def lkW7 : LinkTag := { href := "apt/file", contents := [HNode.text "APT"] }

/-- Document with a blank trailing content node in its second
paragraph. -/
def docW7 : SoupDoc :=
  { ps := [p0W7, p1W7],
    h1s := [[HNode.text "", HNode.elem [HNode.text "GO"]]],
    links := [lkW7, lkW7, lkW7, lkW7, lkW7, lkW7, lkW7, lkW7, lkW7, lkW7,
      lkW7] }

/-- Dict that get_prop_info builds for docW7. -/
def dW7 : List (String × PVal) :=
  [("pi", PVal.s "Jane Doe"), ("pi_inst", PVal.s "STScI"),
   ("title", PVal.s "A Title"), ("cycle", PVal.i 2),
   ("allocation", PVal.q ((25 : Nat) : Rat)), ("excl_time", PVal.i 0),
   ("ptype", PVal.node (HNode.text "GO")), ("apt", PVal.link lkW7),
   ("pdf", PVal.link lkW7)]

/-- Witness for the amended C7 at a concrete document. -/
theorem excl_time_blank_defaults_zero_witness :
    plookup dW7 "excl_time" = some (PVal.i 0) :=
  excl_time_blank_defaults_zero docW7 dW7 p0W7 p1W7 [] " "
    (by rfl) (by rfl) (by rfl) (by rfl)

/-! Claim C10. -/

/-- C10: a nonempty result of get_prop_info carries exactly the nine keys
pi, pi_inst, title, cycle, allocation, excl_time, ptype, apt and pdf, in
construction order, each bound to a value: the extractor is all or
nothing. -/
theorem prop_info_all_or_nothing (doc : SoupDoc) (d : List (String × PVal))
    (h : get_prop_info doc = some d) (hne : d ≠ []) :
    d.map Prod.fst
      = ["pi", "pi_inst", "title", "cycle", "allocation", "excl_time",
         "ptype", "apt", "pdf"] := by
  unfold get_prop_info at h
  split at h
  · rw [Option.some.injEq] at h
    exact absurd h.symm hne
  · exact absurd h (by simp)
  · split at h
    · split at h
      · rw [Option.some.injEq] at h
        subst h
        rfl
      · exact absurd h (by simp)
    · exact absurd h (by simp)

/-- Link tag used by the C10 witness document. -/
def lkW10 : LinkTag := { href := "pdf/file", contents := [HNode.text "PDF"] }

/-- Fully extractable document used to instantiate C10. -/
def docW10 : SoupDoc :=
  { ps := [[HNode.text "", HNode.text "Jane Doe", HNode.text "",
            HNode.text "", HNode.text "", HNode.text "STScI"],
           [HNode.text "", HNode.text "A Title", HNode.text "",
            HNode.text "", HNode.text "", HNode.text "1", HNode.text "",
            HNode.text "", HNode.text "", HNode.text "25 hours"]],
    h1s := [[HNode.text "", HNode.elem [HNode.text "GO"]]],
    links := [lkW10, lkW10, lkW10, lkW10, lkW10, lkW10, lkW10, lkW10, lkW10,
      lkW10, lkW10] }

/-- Dict that get_prop_info builds for docW10. -/
def dW10 : List (String × PVal) :=
  [("pi", PVal.s "Jane Doe"), ("pi_inst", PVal.s "STScI"),
   ("title", PVal.s "A Title"), ("cycle", PVal.i 1),
   ("allocation", PVal.q ((25 : Nat) : Rat)), ("excl_time", PVal.i 25),
   ("ptype", PVal.node (HNode.text "GO")), ("apt", PVal.link lkW10),
   ("pdf", PVal.link lkW10)]

/-- Witness for C10 at a concrete document. -/
theorem prop_info_all_or_nothing_witness :
    dW10.map Prod.fst
      = ["pi", "pi_inst", "title", "cycle", "allocation", "excl_time",
         "ptype", "apt", "pdf"] :=
  prop_info_all_or_nothing docW10 dW10 (by rfl) (by simp [dW10])

end JwstPropStatus
